import Mathlib

/-!
# GoldenHour corridor cascade engine — verification development

Shallow embedding of `src/app/api/detection/route.ts` (the corridor cascade
core: signal registry, incident ledger, cascade scheduler, HTTP boundary)
and of the GPS-beacon fallback endpoint `src/app/api/beacon/route.ts`.

Modelling conventions:
* Wall-clock instants (`Date.now()`, scheduled fire times) are `Nat`
  milliseconds.  Payload-supplied JSON numbers (confidence, event timestamp,
  beacon coordinates) are `ℚ`.
* `setTimeout` callbacks are reified as a list of scheduled events
  `(fireAt, Action)` returned by `activateCorridor` next to the mutated
  state; `runUntil` fires every event whose deadline has passed.  The inner
  `setTimeout` (COOLDOWN → NORMAL_RED after 2000 ms) is flattened to an
  event at its absolute fire time.  Timer callbacks capture the `signal`
  object of the iteration; since the `signalStates` array is never
  reordered or rebuilt, addressing signals by their index is equivalent.
* `Math.random()`-derived data (`timeSavedEstimate`) is a parameter `tse`.
* The TS function `activateCorridor` has no `return` statement, so its
  JavaScript value is `undefined`; the result record carries this as
  `ret := none`.
-/

namespace GoldenHour

/-- The four signal phases of `SignalState.state` in the source. -/
inductive SigPhase where
  | NORMAL_RED
  | CORRIDOR_GREEN
  | PRE_CLEAR_ORANGE
  | COOLDOWN
deriving DecidableEq, Repr

/-- Model of `interface SignalState` from the source. -/
structure SignalState where
  intersectionId : String
  state : SigPhase
  activatedAt : Option Nat
  eta : Nat
  revertAfter : Nat
deriving DecidableEq, Repr

/-- One element of `Incident.signalSwitches` (TS `revertedAt : number | null`). -/
structure SignalSwitch where
  intersectionId : String
  switchedAt : Nat
  revertedAt : Option Nat
deriving DecidableEq, Repr

/-- Ingestion mode recorded on an incident. -/
inductive Mode where
  | vision
  | gps_fallback
deriving DecidableEq, Repr

/-- Model of `interface Incident` from the source. -/
structure Incident where
  id : Nat
  trackId : Nat
  zone : String
  confidence : ℚ
  timestamp : ℚ
  detectedAt : Nat
  direction : String
  signalSwitches : List SignalSwitch
  corridorClearedAt : Option Nat
  timeSavedEstimate : Nat
  mode : Mode
deriving DecidableEq, Repr

/-- Model of `interface Detection` from the source (trackId/direction/velocity are
optional in the TS interface). -/
structure Detection where
  zone : String
  confidence : ℚ
  timestamp : ℚ
  receivedAt : Nat
  trackId : Option Nat
  direction : Option String
  velocity : Option (ℚ × ℚ)
deriving DecidableEq, Repr

/-- The module-level mutable state of `src/app/api/detection/route.ts`:
`latestDetection`, `incidents`, `incidentCounter`, `signalStates`. -/
structure EngineState where
  latestDetection : Option Detection
  incidents : List Incident
  incidentCounter : Nat
  signals : List SignalState
deriving DecidableEq, Repr

/-- The initial `signalStates` array literal. -/
def initSignals : List SignalState :=
  [ { intersectionId := "INT-1", state := .NORMAL_RED, activatedAt := none, eta := 0, revertAfter := 0 },
    { intersectionId := "INT-2", state := .NORMAL_RED, activatedAt := none, eta := 0, revertAfter := 0 },
    { intersectionId := "INT-3", state := .NORMAL_RED, activatedAt := none, eta := 0, revertAfter := 0 },
    { intersectionId := "INT-4", state := .NORMAL_RED, activatedAt := none, eta := 0, revertAfter := 0 } ]

/-- Process-start state of the detection module. -/
def initState : EngineState :=
  { latestDetection := none, incidents := [], incidentCounter := 0, signals := initSignals }

/-- Source constant `ETA_OFFSETS = [0, 8, 18, 28]` (seconds from detection). -/
def ETA_OFFSETS : List Nat := [0, 8, 18, 28]

/-- Source constant `CORRIDOR_DURATION_MS = 5_000`. -/
def CORRIDOR_DURATION_MS : Nat := 5000

/-- The hardcoded 2000 ms cooldown used by both nested reverting timers and
the corridor-cleared timer. -/
def COOLDOWN_MS : Nat := 2000

/-- Value of `ETA_OFFSETS[idx] * 1000`.  The source only ever indexes with
`idx < signalStates.length = 4 = ETA_OFFSETS.length`, so the `getD`
default is never exercised. -/
def etaMs (idx : Nat) : Nat := ETA_OFFSETS.getD idx 0 * 1000

/-- The deferred mutations scheduled by `activateCorridor` via `setTimeout`.
Signals are addressed by their (stable) index in `signalStates`; the
corridor-cleared callback addresses its incident by id. -/
inductive Action where
  | greenAt (idx : Nat)
  | cooldownAt (idx : Nat)
  | redAt (idx : Nat)
  | clearIncident (id : Nat)
deriving DecidableEq, Repr

/-- A scheduled `setTimeout` callback: absolute fire time and its effect. -/
abbrev SchedEvent : Type := Nat × Action

/-- List-map carrying the running index, mirroring
`signalStates.forEach((signal, idx) => ...)`. -/
def withIdx (f : Nat → α → β) : Nat → List α → List β
  | _, [] => []
  | n, a :: as => f n a :: withIdx f (n + 1) as

/-- The synchronous per-signal mutation inside the `forEach`:
phase, `activatedAt := activateAt`, `eta`, `revertAfter := revertAt`. -/
def activateSignal (now idx : Nat) (s : SignalState) : SignalState :=
  { s with
    state := if idx = 0 then .CORRIDOR_GREEN else .PRE_CLEAR_ORANGE,
    activatedAt := some (now + etaMs idx),
    eta := ETA_OFFSETS.getD idx 0,
    revertAfter := now + etaMs idx + CORRIDOR_DURATION_MS }

/-- The `incident.signalSwitches.push({...})` record for position `idx`. -/
def mkSwitch (now idx : Nat) (s : SignalState) : SignalSwitch :=
  { intersectionId := s.intersectionId,
    switchedAt := now + etaMs idx,
    revertedAt := some (now + etaMs idx + CORRIDOR_DURATION_MS) }

/-- The timers registered for position `idx`: `PRE_CLEAR → GREEN` at
`ETA[idx]*1000` (only for `idx > 0`), `→ COOLDOWN` at
`ETA[idx]*1000 + CORRIDOR_DURATION_MS`, and the nested `→ NORMAL_RED`
2000 ms later. -/
def perIdxEvents (now idx : Nat) : List SchedEvent :=
  (if 0 < idx then [(now + etaMs idx, Action.greenAt idx)] else []) ++
  [ (now + etaMs idx + CORRIDOR_DURATION_MS, Action.cooldownAt idx),
    (now + etaMs idx + CORRIDOR_DURATION_MS + COOLDOWN_MS, Action.redAt idx) ]

/-- Source expression `totalDuration = ETA_OFFSETS[ETA_OFFSETS.length - 1] * 1000 +
CORRIDOR_DURATION_MS + 2000`. -/
def totalDuration : Nat :=
  ETA_OFFSETS.getD (ETA_OFFSETS.length - 1) 0 * 1000 + CORRIDOR_DURATION_MS + COOLDOWN_MS

/-- Model of `incidents.unshift(incident); if (incidents.length > 200) incidents.length = 200`. -/
def pushIncident (inc : Incident) (l : List Incident) : List Incident :=
  if (inc :: l).length > 200 then (inc :: l).take 200 else inc :: l

/-- Result of one `activateCorridor` call: the JS return value (`undefined`,
as the body has no `return`), the mutated module state, and the registered
timers. -/
structure ActivateResult where
  ret : Option Nat
  state : EngineState
  sched : List SchedEvent
deriving DecidableEq, Repr

/-- The `const incident : Incident = {...}` literal built by
`activateCorridor`, with the `signalSwitches` entries the `forEach` pushes
onto it (built before any timer can fire). -/
def mkIncident (detection : Detection) (now tse counter' : Nat)
    (signals : List SignalState) : Incident :=
  { id := counter',
    trackId := detection.trackId.getD 0,
    zone := detection.zone,
    confidence := detection.confidence,
    timestamp := detection.timestamp,
    detectedAt := now,
    direction := detection.direction.getD "UNKNOWN",
    signalSwitches := withIdx (mkSwitch now) 0 signals,
    corridorClearedAt := none,
    timeSavedEstimate := tse,
    mode := .vision }

/-- Model of `function activateCorridor(detection)` — the cascade scheduler core. -/
def activateCorridor (detection : Detection) (now tse : Nat) (st : EngineState) :
    ActivateResult :=
  let counter' := st.incidentCounter + 1
  let inc : Incident := mkIncident detection now tse counter' st.signals
  let signals' := withIdx (activateSignal now) 0 st.signals
  let sched :=
    (List.range st.signals.length).flatMap (perIdxEvents now) ++
    [(now + totalDuration, Action.clearIncident counter')]
  { ret := none,
    state :=
      { latestDetection := st.latestDetection,
        incidents := pushIncident inc st.incidents,
        incidentCounter := counter',
        signals := signals' },
    sched := sched }

/-- Replace the element at position `idx` (identity when out of range) —
the effect of a timer callback that mutates its captured `signal` object. -/
def modifyIdx (f : SignalState → SignalState) : Nat → List SignalState → List SignalState
  | _, [] => []
  | 0, s :: rest => f s :: rest
  | n + 1, s :: rest => s :: modifyIdx f n rest

/-- Assignment `signal.state = "CORRIDOR_GREEN"` / `"COOLDOWN"` in a timer callback. -/
def setPhase (p : SigPhase) (s : SignalState) : SignalState := { s with state := p }

/-- The innermost timer callback: `signal.state = "NORMAL_RED";
signal.activatedAt = null`. -/
def resetSignal (s : SignalState) : SignalState :=
  { s with state := .NORMAL_RED, activatedAt := none }

/-- The corridor-cleared callback, `incident.corridorClearedAt = Date.now()`,
stamping fire time `t` on the incident with id `cid`.  It mutates the
captured incident object, observable through the ledger exactly when that
incident is still retained. -/
def stampCleared (cid t : Nat) (i : Incident) : Incident :=
  if i.id = cid then { i with corridorClearedAt := some t } else i

/-- Effect of one fired timer callback on the module state. -/
def applyEvent (st : EngineState) (e : SchedEvent) : EngineState :=
  match e.2 with
  | .greenAt idx =>
      { st with signals := modifyIdx (setPhase .CORRIDOR_GREEN) idx st.signals }
  | .cooldownAt idx =>
      { st with signals := modifyIdx (setPhase .COOLDOWN) idx st.signals }
  | .redAt idx =>
      { st with signals := modifyIdx resetSignal idx st.signals }
  | .clearIncident cid =>
      { st with incidents := st.incidents.map (stampCleared cid e.1) }

/-- Fire every scheduled event whose deadline is ≤ `t`.  The schedule
emitted by `activateCorridor` is listed in nondecreasing fire-time order
(ETA gaps exceed the 7000 ms per-signal tail), so list order coincides
with timer-firing order. -/
def runUntil (st : EngineState) (evs : List SchedEvent) (t : Nat) : EngineState :=
  (evs.filter (fun e => e.1 ≤ t)).foldl applyEvent st

-- ── HTTP boundary: POST /api/detection ──────────────────────────────────

/-- A parsed JSON request body for the detection endpoint; every field the
handler destructures may be absent. -/
structure JsonBody where
  zone : Option String
  confidence : Option ℚ
  timestamp : Option ℚ
  trackId : Option Nat
  direction : Option String
  velocity : Option (ℚ × ℚ)
deriving DecidableEq, Repr

/-- A default-free body: `{}` parses fine as JSON yet carries none of the
required detection fields. -/
def emptyBody : JsonBody :=
  { zone := none, confidence := none, timestamp := none,
    trackId := none, direction := none, velocity := none }

/-- Shape of a `NextResponse.json(...)` result: HTTP status plus the success flag and
optional error string of the JSON payload. -/
structure Response where
  status : Nat
  success : Bool
  error : Option String
deriving DecidableEq, Repr

/-- Result of one detection `POST`: the HTTP response, the module state
after the synchronous part of the handler, and the timers it registered. -/
structure PostResult where
  resp : Response
  state : EngineState
  sched : List SchedEvent
deriving DecidableEq, Repr

/-- The `latestDetection` object the handler assembles with `??` defaults
from a parsed body. -/
def detOfBody (b : JsonBody) (now : Nat) : Detection :=
  { zone := b.zone.getD "UNKNOWN",
    confidence := b.confidence.getD 0,
    timestamp := b.timestamp.getD 0,
    receivedAt := now,
    trackId := some (b.trackId.getD 0),
    direction := some (b.direction.getD "UNKNOWN"),
    velocity := some (b.velocity.getD (0, 0)) }

/-- Model of `export async function POST(req)` of the detection route.  `body? = none`
models `req.json()` (or the destructuring of a nullish body) throwing, which
the `catch` turns into a 400; any parsed object is accepted, every missing
field silently defaulted with `??`. -/
def detectionPOST (body? : Option JsonBody) (now tse : Nat) (st : EngineState) :
    PostResult :=
  match body? with
  | none =>
      { resp := { status := 400, success := false, error := some "Invalid JSON body" },
        state := st, sched := [] }
  | some b =>
      let det : Detection := detOfBody b now
      let r := activateCorridor det now tse { st with latestDetection := some det }
      { resp := { status := 200, success := true, error := none },
        state := r.state, sched := r.sched }

-- ── HTTP boundary: GET /api/detection ───────────────────────────────────

/-- The `stats` object of the GET payload. -/
structure StatsR where
  totalCorridorsCleared : Nat
  totalIncidents : Nat
  avgTimeSaved : Nat
deriving DecidableEq, Repr

/-- JS truthiness of `i.corridorClearedAt` (a `number | null`):
`null` and `0` are falsy, every other number truthy. -/
def jsTruthy : Option Nat → Bool
  | none => false
  | some 0 => false
  | some (_ + 1) => true

/-- Model of `incidents.reduce((s, i) => s + i.timeSavedEstimate, 0)`. -/
def sumTimeSaved (l : List Incident) : Nat :=
  l.foldl (fun s i => s + i.timeSavedEstimate) 0

/-- Value of `Math.round(sum / len)` for nonnegative integers `sum`, `len > 0`:
JS rounds half toward +∞, i.e. `⌊sum/len + 1/2⌋ = (2*sum + len) / (2*len)`
in integer division.  (For the magnitudes involved the double division is
exact enough that the rounded result equals the exact rational one.) -/
def jsRoundDiv (sum len : Nat) : Nat := (2 * sum + len) / (2 * len)

/-- The `stats` block computed inside `GET`. -/
def statsOf (l : List Incident) : StatsR :=
  { totalCorridorsCleared := (l.filter (fun i => jsTruthy i.corridorClearedAt)).length,
    totalIncidents := l.length,
    avgTimeSaved := if 0 < l.length then jsRoundDiv (sumTimeSaved l) l.length else 0 }

/-- The GET payload of the detection route. -/
structure GetResponse where
  detection : Option Detection
  signals : List SignalState
  recentIncidents : List Incident
  stats : StatsR
deriving DecidableEq, Repr

/-- Model of `export async function GET()` of the detection route. -/
def detectionGET (st : EngineState) : GetResponse :=
  { detection := st.latestDetection,
    signals := st.signals,
    recentIncidents := st.incidents.take 50,
    stats := statsOf st.incidents }

-- ── HTTP boundary: POST /api/beacon ─────────────────────────────────────

/-- A parsed JSON body for the beacon endpoint; each destructured field may
be absent. -/
structure BeaconBody where
  lat : Option ℚ
  lng : Option ℚ
  speed : Option ℚ
  heading : Option ℚ
  timestamp : Option ℚ
deriving DecidableEq, Repr

/-- Model of `function headingToDirection(heading)`.  When `heading` is `undefined`
every JS comparison is false and control falls through to `"WEST"`. -/
def headingToDirection : Option ℚ → String
  | some h =>
      if 315 ≤ h ∨ h < 45 then "NORTH"
      else if 45 ≤ h ∧ h < 135 then "EAST"
      else if 135 ≤ h ∧ h < 225 then "SOUTH"
      else "WEST"
  | none => "WEST"

/-- Zone inference from longitude in the beacon handler; with `lng`
`undefined` both comparisons are false and the zone stays `"CENTER"`. -/
def zoneOfLng : Option ℚ → String
  | some x => if x < 77.595 then "LEFT" else if x > 77.605 then "RIGHT" else "CENTER"
  | none => "CENTER"

/-- The detection payload the beacon handler forwards via
`fetch("http://localhost:3000/api/detection", ...)`.  `JSON.stringify`
drops an `undefined` timestamp, so the raw optional value is forwarded.
`vel` stands for `{dx: speed*cos(heading·π/180), dy: speed*sin(...)}`,
floating-point trigonometry that no downstream code ever reads (incidents
do not store velocity), passed as an opaque pair parameter. -/
def beaconForwardBody (b : BeaconBody) (vel : ℚ × ℚ) : JsonBody :=
  { zone := some (zoneOfLng b.lng),
    confidence := some (3 / 4),
    timestamp := b.timestamp,
    trackId := some 0,
    direction := some (headingToDirection b.heading),
    velocity := some vel }

/-- The beacon endpoint's response: status, success flag, and the `mode`
string it reports. -/
structure BeaconResponse where
  status : Nat
  success : Bool
  mode : Option String
deriving DecidableEq, Repr

/-- Model of `export async function POST(req)` of the beacon route.  `body? = none`
models an unparsable body (→ 400, nothing forwarded); `fetchOk` models
whether the self-POST to `/api/detection` succeeds (its failure is
swallowed).  Returns the beacon response together with the detection
module's state and timers after the forwarded call. -/
def beaconPOST (body? : Option BeaconBody) (fetchOk : Bool) (vel : ℚ × ℚ)
    (now tse : Nat) (st : EngineState) :
    BeaconResponse × EngineState × List SchedEvent :=
  match body? with
  | none => ({ status := 400, success := false, mode := none }, st, [])
  | some b =>
      if fetchOk then
        let r := detectionPOST (some (beaconForwardBody b vel)) now tse st
        ({ status := 200, success := true, mode := some "gps_fallback" }, r.state, r.sched)
      else
        ({ status := 200, success := true, mode := some "gps_fallback" }, st, [])

-- ── Projection lemmas: events acting on one signal / one incident ──────

/-- The effect of one event on the signal at position `k` alone. -/
def applySig (k : Nat) (s : SignalState) (e : SchedEvent) : SignalState :=
  match e.2 with
  | .greenAt i => if i = k then setPhase .CORRIDOR_GREEN s else s
  | .cooldownAt i => if i = k then setPhase .COOLDOWN s else s
  | .redAt i => if i = k then resetSignal s else s
  | .clearIncident _ => s

/-- Whether an event touches the signal at position `k`. -/
def targetsSig (k : Nat) (e : SchedEvent) : Bool :=
  match e.2 with
  | .greenAt i => i == k
  | .cooldownAt i => i == k
  | .redAt i => i == k
  | .clearIncident _ => false

/-- Whether an event is a corridor-cleared callback. -/
def isClearEvent (e : SchedEvent) : Bool :=
  match e.2 with
  | .clearIncident _ => true
  | _ => false

/-- The effect of one event on a single incident record. -/
def applyInc (i : Incident) (e : SchedEvent) : Incident :=
  match e.2 with
  | .clearIncident cid => stampCleared cid e.1 i
  | _ => i

theorem modifyIdx_getElem? (f : SignalState → SignalState) :
    ∀ (n : Nat) (l : List SignalState) (k : Nat),
      (modifyIdx f n l)[k]? = if n = k then (l[k]?).map f else l[k]? := by
  intro n l
  induction l generalizing n with
  | nil => intro k; cases n <;> simp [modifyIdx]
  | cons a as ih =>
    intro k
    cases n with
    | zero => cases k <;> simp [modifyIdx]
    | succ m =>
      cases k with
      | zero => simp [modifyIdx]
      | succ j => simpa [modifyIdx] using ih m j

theorem applyEvent_signals_getElem? (st : EngineState) (e : SchedEvent) (k : Nat) :
    ((applyEvent st e).signals)[k]? = (st.signals[k]?).map (fun s => applySig k s e) := by
  rcases e with ⟨t, a⟩
  cases a with
  | greenAt i =>
    by_cases h : i = k <;> simp [applyEvent, applySig, modifyIdx_getElem?, h]
  | cooldownAt i =>
    by_cases h : i = k <;> simp [applyEvent, applySig, modifyIdx_getElem?, h]
  | redAt i =>
    by_cases h : i = k <;> simp [applyEvent, applySig, modifyIdx_getElem?, h]
  | clearIncident cid => simp [applyEvent, applySig]

theorem foldl_applyEvent_signals (evs : List SchedEvent) :
    ∀ (st : EngineState) (k : Nat),
      ((evs.foldl applyEvent st).signals)[k]? =
        (st.signals[k]?).map (fun s => evs.foldl (applySig k) s) := by
  induction evs with
  | nil => intro st k; simp
  | cons e rest ih =>
    intro st k
    simp only [List.foldl_cons, ih, applyEvent_signals_getElem?]
    cases st.signals[k]? <;> simp

theorem applySig_not_target {k : Nat} {e : SchedEvent} (h : targetsSig k e = false)
    (s : SignalState) : applySig k s e = s := by
  rcases e with ⟨t, a⟩
  cases a <;> simp_all [targetsSig, applySig]

theorem foldl_applySig_filter_target (k : Nat) :
    ∀ (l : List SchedEvent) (s : SignalState),
      l.foldl (applySig k) s = (l.filter (targetsSig k)).foldl (applySig k) s := by
  intro l
  induction l with
  | nil => intro s; rfl
  | cons e rest ih =>
    intro s
    by_cases h : targetsSig k e
    · simp [List.filter_cons, h, ih]
    · simp only [Bool.not_eq_true] at h
      simp [List.filter_cons, h, ih, applySig_not_target h]

theorem applyEvent_incidents (st : EngineState) (e : SchedEvent) :
    (applyEvent st e).incidents = st.incidents.map (fun i => applyInc i e) := by
  rcases e with ⟨t, a⟩
  cases a <;> simp [applyEvent, applyInc]

theorem foldl_applyEvent_incidents (evs : List SchedEvent) :
    ∀ st : EngineState,
      (evs.foldl applyEvent st).incidents =
        st.incidents.map (fun i => evs.foldl applyInc i) := by
  induction evs with
  | nil => intro st; simp
  | cons e rest ih =>
    intro st
    simp [List.foldl_cons, ih, applyEvent_incidents, List.map_map, Function.comp]

theorem applyInc_not_clear {e : SchedEvent} (h : isClearEvent e = false) (i : Incident) :
    applyInc i e = i := by
  rcases e with ⟨t, a⟩
  cases a <;> simp_all [isClearEvent, applyInc]

theorem foldl_applyInc_filter_clear :
    ∀ (l : List SchedEvent) (i : Incident),
      l.foldl applyInc i = (l.filter isClearEvent).foldl applyInc i := by
  intro l
  induction l with
  | nil => intro i; rfl
  | cons e rest ih =>
    intro i
    by_cases h : isClearEvent e
    · simp [List.filter_cons, h, ih]
    · simp only [Bool.not_eq_true] at h
      simp [List.filter_cons, h, ih, applyInc_not_clear h]

theorem applyInc_id (i : Incident) (e : SchedEvent) : (applyInc i e).id = i.id := by
  rcases e with ⟨t, a⟩
  cases a <;> simp [applyInc, stampCleared] <;> split <;> rfl

theorem foldl_applyInc_id (l : List SchedEvent) :
    ∀ i : Incident, (l.foldl applyInc i).id = i.id := by
  induction l with
  | nil => intro i; rfl
  | cons e rest ih => intro i; rw [List.foldl_cons, ih, applyInc_id]

theorem applyInc_mode (i : Incident) (e : SchedEvent) : (applyInc i e).mode = i.mode := by
  rcases e with ⟨t, a⟩
  cases a <;> simp [applyInc, stampCleared] <;> split <;> rfl

theorem foldl_applyInc_mode (l : List SchedEvent) :
    ∀ i : Incident, (l.foldl applyInc i).mode = i.mode := by
  induction l with
  | nil => intro i; rfl
  | cons e rest ih => intro i; rw [List.foldl_cons, ih, applyInc_mode]

-- ── Schedule shape ──────────────────────────────────────────────────────

theorem totalDuration_eq : totalDuration = 35000 := rfl

theorem filter_swap (l : List SchedEvent) (p q : SchedEvent → Bool) :
    (l.filter p).filter q = (l.filter q).filter p := by
  rw [List.filter_filter, List.filter_filter]
  exact List.filter_congr (fun a _ => by rw [Bool.and_comm])

theorem perIdxEvents_no_clear {e : SchedEvent} {now idx : Nat}
    (h : e ∈ perIdxEvents now idx) : isClearEvent e = false := by
  simp only [perIdxEvents, List.mem_append, List.mem_cons, List.not_mem_nil,
    or_false] at h
  rcases h with h | h | h
  · split at h <;> simp_all [isClearEvent]
  · subst h; rfl
  · subst h; rfl

theorem flatMap_perIdx_filter_clear (n now : Nat) :
    (((List.range n).flatMap (perIdxEvents now)).filter isClearEvent) = [] := by
  refine List.filter_eq_nil_iff.mpr ?_
  intro e he
  rcases List.mem_flatMap.mp he with ⟨idx, _, hmem⟩
  simp [perIdxEvents_no_clear hmem]

theorem sched_filter_clear (d : Detection) (now tse : Nat) (st : EngineState) :
    (activateCorridor d now tse st).sched.filter isClearEvent =
      [(now + totalDuration, Action.clearIncident (st.incidentCounter + 1))] := by
  show (((List.range st.signals.length).flatMap (perIdxEvents now)) ++
      [(now + totalDuration, Action.clearIncident (st.incidentCounter + 1))]).filter
      isClearEvent = _
  rw [List.filter_append, flatMap_perIdx_filter_clear]
  rfl

/-- The 12 timers of one cascade over the 4 configured signals, in firing
order, given the concrete `ETA_OFFSETS`. -/
theorem sched_of_len4 (d : Detection) (now tse : Nat) (st : EngineState)
    (h : st.signals.length = 4) :
    (activateCorridor d now tse st).sched =
      [ (now + 5000, Action.cooldownAt 0), (now + 7000, Action.redAt 0),
        (now + 8000, Action.greenAt 1), (now + 13000, Action.cooldownAt 1),
        (now + 15000, Action.redAt 1),
        (now + 18000, Action.greenAt 2), (now + 23000, Action.cooldownAt 2),
        (now + 25000, Action.redAt 2),
        (now + 28000, Action.greenAt 3), (now + 33000, Action.cooldownAt 3),
        (now + 35000, Action.redAt 3),
        (now + 35000, Action.clearIncident (st.incidentCounter + 1)) ] := by
  show ((List.range st.signals.length).flatMap (perIdxEvents now)) ++
      [(now + totalDuration, Action.clearIncident (st.incidentCounter + 1))] = _
  rw [h, show List.range 4 = [0, 1, 2, 3] from rfl]
  simp only [List.flatMap_cons, List.flatMap_nil, perIdxEvents, etaMs, totalDuration,
    ETA_OFFSETS, CORRIDOR_DURATION_MS, COOLDOWN_MS, List.getD, List.append_nil]
  norm_num

-- ── Per-signal timeline evaluation ──────────────────────────────────────

/-- The three timers a cascade registers for a position `k > 0`:
green at `g`, cooldown at `c`, red at `r`. -/
def sigTimeline (k g c r : Nat) : List SchedEvent :=
  [(g, Action.greenAt k), (c, Action.cooldownAt k), (r, Action.redAt k)]

/-- The two timers registered for position `0` (already green, no green
timer): cooldown at `c`, red at `r`. -/
def sigTimeline0 (k c r : Nat) : List SchedEvent :=
  [(c, Action.cooldownAt k), (r, Action.redAt k)]

theorem foldTimeline_eval (k g c r T : Nat) (s : SignalState)
    (hgc : g ≤ c) (hcr : c ≤ r) :
    ((sigTimeline k g c r).filter (fun e => e.1 ≤ T)).foldl (applySig k) s =
      if T < g then s
      else if T < c then setPhase .CORRIDOR_GREEN s
      else if T < r then setPhase .COOLDOWN (setPhase .CORRIDOR_GREEN s)
      else resetSignal (setPhase .COOLDOWN (setPhase .CORRIDOR_GREEN s)) := by
  by_cases h1 : T < g
  · have n1 : ¬ (g ≤ T) := by omega
    have n2 : ¬ (c ≤ T) := by omega
    have n3 : ¬ (r ≤ T) := by omega
    simp [sigTimeline, List.filter_cons, n1, n2, n3, h1]
  · by_cases h2 : T < c
    · have p1 : g ≤ T := by omega
      have n2 : ¬ (c ≤ T) := by omega
      have n3 : ¬ (r ≤ T) := by omega
      simp [sigTimeline, List.filter_cons, p1, n2, n3, h1, h2, applySig]
    · by_cases h3 : T < r
      · have p1 : g ≤ T := by omega
        have p2 : c ≤ T := by omega
        have n3 : ¬ (r ≤ T) := by omega
        simp [sigTimeline, List.filter_cons, p1, p2, n3, h1, h2, h3, applySig]
      · have p1 : g ≤ T := by omega
        have p2 : c ≤ T := by omega
        have p3 : r ≤ T := by omega
        simp [sigTimeline, List.filter_cons, p1, p2, p3, h1, h2, h3, applySig]

theorem foldTimeline0_eval (k c r T : Nat) (s : SignalState) (hcr : c ≤ r) :
    ((sigTimeline0 k c r).filter (fun e => e.1 ≤ T)).foldl (applySig k) s =
      if T < c then s
      else if T < r then setPhase .COOLDOWN s
      else resetSignal (setPhase .COOLDOWN s) := by
  by_cases h1 : T < c
  · have n1 : ¬ (c ≤ T) := by omega
    have n2 : ¬ (r ≤ T) := by omega
    simp [sigTimeline0, List.filter_cons, n1, n2, h1]
  · by_cases h2 : T < r
    · have p1 : c ≤ T := by omega
      have n2 : ¬ (r ≤ T) := by omega
      simp [sigTimeline0, List.filter_cons, p1, n2, h1, h2, applySig]
    · have p1 : c ≤ T := by omega
      have p2 : r ≤ T := by omega
      simp [sigTimeline0, List.filter_cons, p1, p2, h1, h2, applySig]

theorem sched_targets_0 (d : Detection) (now tse : Nat) (st : EngineState)
    (h : st.signals.length = 4) :
    (activateCorridor d now tse st).sched.filter (targetsSig 0) =
      sigTimeline0 0 (now + 5000) (now + 7000) := by
  rw [sched_of_len4 d now tse st h]; rfl

theorem sched_targets_1 (d : Detection) (now tse : Nat) (st : EngineState)
    (h : st.signals.length = 4) :
    (activateCorridor d now tse st).sched.filter (targetsSig 1) =
      sigTimeline 1 (now + 8000) (now + 13000) (now + 15000) := by
  rw [sched_of_len4 d now tse st h]; rfl

theorem sched_targets_2 (d : Detection) (now tse : Nat) (st : EngineState)
    (h : st.signals.length = 4) :
    (activateCorridor d now tse st).sched.filter (targetsSig 2) =
      sigTimeline 2 (now + 18000) (now + 23000) (now + 25000) := by
  rw [sched_of_len4 d now tse st h]; rfl

theorem sched_targets_3 (d : Detection) (now tse : Nat) (st : EngineState)
    (h : st.signals.length = 4) :
    (activateCorridor d now tse st).sched.filter (targetsSig 3) =
      sigTimeline 3 (now + 28000) (now + 33000) (now + 35000) := by
  rw [sched_of_len4 d now tse st h]; rfl

theorem withIdx_getElem? (f : Nat → SignalState → SignalState) :
    ∀ (n : Nat) (l : List SignalState) (k : Nat),
      (withIdx f n l)[k]? = (l[k]?).map (f (n + k)) := by
  intro n l
  induction l generalizing n with
  | nil => intro k; simp [withIdx]
  | cons a as ih =>
    intro k
    cases k with
    | zero => simp [withIdx]
    | succ j =>
      have := ih (n + 1) j
      simpa [withIdx, Nat.add_assoc, Nat.add_comm 1 j] using this

/-- State of the signal at position `k` at any instant `T` after one
cascade: project `runUntil` through the per-signal fold. -/
theorem runUntil_signal_proj (d : Detection) (now tse : Nat) (st : EngineState)
    (T k : Nat) :
    (runUntil (activateCorridor d now tse st).state
        (activateCorridor d now tse st).sched T).signals[k]? =
      (st.signals[k]?).map (fun s =>
        (((activateCorridor d now tse st).sched.filter (targetsSig k)).filter
            (fun e => e.1 ≤ T)).foldl (applySig k) (activateSignal now k s)) := by
  show (((activateCorridor d now tse st).sched.filter (fun e => e.1 ≤ T)).foldl
      applyEvent (activateCorridor d now tse st).state).signals[k]? = _
  rw [foldl_applyEvent_signals]
  have hsig : (activateCorridor d now tse st).state.signals =
      withIdx (activateSignal now) 0 st.signals := rfl
  rw [hsig, withIdx_getElem? (activateSignal now) 0 st.signals k]
  cases st.signals[k]? with
  | none => rfl
  | some s =>
    simp only [Option.map_some', Nat.zero_add, Option.some.injEq]
    rw [foldl_applySig_filter_target, filter_swap]

-- ── Incident-side evaluation ────────────────────────────────────────────

theorem pushIncident_eq_take (inc : Incident) (l : List Incident) :
    pushIncident inc l = (inc :: l).take 200 := by
  rw [pushIncident]
  split
  · rfl
  · rename_i h
    exact (List.take_of_length_le (by simp at h ⊢; omega)).symm

theorem pushIncident_head (inc : Incident) (l : List Incident) :
    (pushIncident inc l).head? = some inc := by
  rw [pushIncident_eq_take, show (200 : Nat) = 199 + 1 from rfl, List.take_succ_cons]
  rfl

theorem pushIncident_length (inc : Incident) (l : List Incident) :
    (pushIncident inc l).length = min (l.length + 1) 200 := by
  rw [pushIncident_eq_take, List.length_take, Nat.min_comm]
  rfl

/-- Value of `corridorClearedAt` of the newest incident at any instant `T` after its
cascade started: `null` strictly before `now + totalDuration`, stamped with
the fire time from then on. -/
theorem newIncident_cleared_at (d : Detection) (now tse : Nat) (st : EngineState)
    (T : Nat) :
    ((runUntil (activateCorridor d now tse st).state
        (activateCorridor d now tse st).sched T).incidents.head?).map
        (·.corridorClearedAt) =
      some (if now + totalDuration ≤ T then some (now + totalDuration) else none) := by
  show ((((activateCorridor d now tse st).sched.filter (fun e => e.1 ≤ T)).foldl
      applyEvent (activateCorridor d now tse st).state).incidents.head?).map
      (·.corridorClearedAt) = _
  rw [foldl_applyEvent_incidents, List.head?_map]
  have hpush : (activateCorridor d now tse st).state.incidents =
      pushIncident (mkIncident d now tse (st.incidentCounter + 1) st.signals)
        st.incidents := rfl
  rw [hpush, pushIncident_head]
  simp only [Option.map_some', Option.some.injEq]
  rw [foldl_applyInc_filter_clear, filter_swap, sched_filter_clear]
  by_cases hT : now + totalDuration ≤ T
  · simp [List.filter_cons, hT, applyInc, stampCleared, mkIncident]
  · simp [List.filter_cons, hT, mkIncident]

theorem withIdx_mem {f : Nat → α → β} :
    ∀ {n : Nat} {l : List α} {x : β}, x ∈ withIdx f n l → ∃ i a, a ∈ l ∧ x = f i a := by
  intro n l
  induction l generalizing n with
  | nil => intro x hx; simp [withIdx] at hx
  | cons a as ih =>
    intro x hx
    rcases List.mem_cons.mp hx with h | h
    · exact ⟨n, a, List.mem_cons_self a as, h⟩
    · rcases ih h with ⟨i, b, hb, rfl⟩
      exact ⟨i, b, List.mem_cons_of_mem a hb, rfl⟩

theorem withIdx_length (f : Nat → α → β) :
    ∀ (n : Nat) (l : List α), (withIdx f n l).length = l.length := by
  intro n l
  induction l generalizing n with
  | nil => rfl
  | cons a as ih => simp [withIdx, ih]

theorem withIdx_map (f : Nat → α → β) (g : β → γ) (gg : α → γ)
    (hg : ∀ i a, g (f i a) = gg a) :
    ∀ (n : Nat) (l : List α), (withIdx f n l).map g = l.map gg := by
  intro n l
  induction l generalizing n with
  | nil => rfl
  | cons a as ih => simp [withIdx, hg, ih]

theorem etaMs_le (i : Nat) : etaMs i ≤ 28000 := by
  rcases i with _ | _ | _ | _ | j
  · decide
  · decide
  · decide
  · decide
  · simp [etaMs, ETA_OFFSETS, List.getD_cons_succ, List.getD_nil]

-- ── Signal phase / activatedAt over time ────────────────────────────────

theorem runUntil_state_eval_pos (d : Detection) (now tse : Nat) (st : EngineState)
    (T k g : Nat) (s : SignalState) (hs : st.signals[k]? = some s) (hk0 : 0 < k)
    (htl : (activateCorridor d now tse st).sched.filter (targetsSig k) =
      sigTimeline k g (g + CORRIDOR_DURATION_MS)
        (g + CORRIDOR_DURATION_MS + COOLDOWN_MS)) :
    ((runUntil (activateCorridor d now tse st).state
        (activateCorridor d now tse st).sched T).signals[k]?).map (·.state) =
      some (if T < g then SigPhase.PRE_CLEAR_ORANGE
        else if T < g + CORRIDOR_DURATION_MS then SigPhase.CORRIDOR_GREEN
        else if T < g + CORRIDOR_DURATION_MS + COOLDOWN_MS then SigPhase.COOLDOWN
        else SigPhase.NORMAL_RED) := by
  rw [runUntil_signal_proj, hs, htl]
  simp only [Option.map_some']
  rw [foldTimeline_eval _ _ _ _ _ _ (by omega) (by omega)]
  have hk : ¬ (k = 0) := by omega
  split_ifs <;> simp [activateSignal, setPhase, resetSignal, hk]

theorem runUntil_state_eval_zero (d : Detection) (now tse : Nat) (st : EngineState)
    (T : Nat) (s : SignalState) (hs : st.signals[0]? = some s)
    (htl : (activateCorridor d now tse st).sched.filter (targetsSig 0) =
      sigTimeline0 0 (now + CORRIDOR_DURATION_MS)
        (now + CORRIDOR_DURATION_MS + COOLDOWN_MS)) :
    ((runUntil (activateCorridor d now tse st).state
        (activateCorridor d now tse st).sched T).signals[0]?).map (·.state) =
      some (if T < now + CORRIDOR_DURATION_MS then SigPhase.CORRIDOR_GREEN
        else if T < now + CORRIDOR_DURATION_MS + COOLDOWN_MS then SigPhase.COOLDOWN
        else SigPhase.NORMAL_RED) := by
  rw [runUntil_signal_proj, hs, htl]
  simp only [Option.map_some']
  rw [foldTimeline0_eval _ _ _ _ _ (by omega)]
  split_ifs <;> simp [activateSignal, setPhase, resetSignal]

theorem runUntil_activatedAt_eval_pos (d : Detection) (now tse : Nat)
    (st : EngineState) (T k g : Nat) (s : SignalState)
    (hs : st.signals[k]? = some s)
    (htl : (activateCorridor d now tse st).sched.filter (targetsSig k) =
      sigTimeline k g (g + CORRIDOR_DURATION_MS)
        (g + CORRIDOR_DURATION_MS + COOLDOWN_MS)) :
    ((runUntil (activateCorridor d now tse st).state
        (activateCorridor d now tse st).sched T).signals[k]?).map (·.activatedAt) =
      some (if T < g + CORRIDOR_DURATION_MS + COOLDOWN_MS
        then some (now + etaMs k) else none) := by
  rw [runUntil_signal_proj, hs, htl]
  simp only [Option.map_some']
  rw [foldTimeline_eval _ _ _ _ _ _ (by omega) (by omega)]
  split_ifs <;> simp [activateSignal, setPhase, resetSignal] <;> omega

theorem runUntil_activatedAt_eval_zero (d : Detection) (now tse : Nat)
    (st : EngineState) (T : Nat) (s : SignalState)
    (hs : st.signals[0]? = some s)
    (htl : (activateCorridor d now tse st).sched.filter (targetsSig 0) =
      sigTimeline0 0 (now + CORRIDOR_DURATION_MS)
        (now + CORRIDOR_DURATION_MS + COOLDOWN_MS)) :
    ((runUntil (activateCorridor d now tse st).state
        (activateCorridor d now tse st).sched T).signals[0]?).map (·.activatedAt) =
      some (if T < now + CORRIDOR_DURATION_MS + COOLDOWN_MS
        then some (now + etaMs 0) else none) := by
  rw [runUntil_signal_proj, hs, htl]
  simp only [Option.map_some']
  rw [foldTimeline0_eval _ _ _ _ _ (by omega)]
  split_ifs <;> simp [activateSignal, setPhase, resetSignal] <;> omega

/-- The cascade's timers over the signal at position `k`, for each of the
four configured positions, in the `g / g + duration / g + duration +
cooldown` shape with `g = now + etaMs k`. -/
theorem sched_targets_eval (d : Detection) (now tse : Nat) (st : EngineState)
    (hlen : st.signals.length = 4) (k : Nat) (hk0 : 0 < k) (hk : k < 4) :
    (activateCorridor d now tse st).sched.filter (targetsSig k) =
      sigTimeline k (now + etaMs k) (now + etaMs k + CORRIDOR_DURATION_MS)
        (now + etaMs k + CORRIDOR_DURATION_MS + COOLDOWN_MS) := by
  interval_cases k
  · exact sched_targets_1 d now tse st hlen
  · exact sched_targets_2 d now tse st hlen
  · exact sched_targets_3 d now tse st hlen

theorem sched_targets_zero_eval (d : Detection) (now tse : Nat) (st : EngineState)
    (hlen : st.signals.length = 4) :
    (activateCorridor d now tse st).sched.filter (targetsSig 0) =
      sigTimeline0 0 (now + CORRIDOR_DURATION_MS)
        (now + CORRIDOR_DURATION_MS + COOLDOWN_MS) := by
  exact sched_targets_0 d now tse st hlen

/-- The synchronous (pre-timer) signal mutation of `activateCorridor`:
position `k` in the updated registry. -/
theorem activate_sync_signal (d : Detection) (now tse : Nat) (st : EngineState)
    (k : Nat) (s : SignalState) (hs : st.signals[k]? = some s) :
    (activateCorridor d now tse st).state.signals[k]? =
      some (activateSignal now k s) := by
  show (withIdx (activateSignal now) 0 st.signals)[k]? = _
  rw [withIdx_getElem? (activateSignal now) 0 st.signals k, hs]
  simp

-- ── Fixtures for witnesses and counterexamples ──────────────────────────

/-- A concrete well-formed detection, as the ingestion boundary would build
it. -/
def demoDetection : Detection :=
  { zone := "LEFT", confidence := 9 / 10, timestamp := 5, receivedAt := 1000,
    trackId := some 7, direction := some "NORTH", velocity := some (1, 2) }

/-- A minimal incident literal for ledger-level statements. -/
def plainIncident (n ts : Nat) (cl : Option Nat) : Incident :=
  { id := n, trackId := 0, zone := "Z", confidence := 1, timestamp := 0,
    detectedAt := 0, direction := "NORTH", signalSwitches := [],
    corridorClearedAt := cl, timeSavedEstimate := ts, mode := .vision }

-- ── Claims ──────────────────────────────────────────────────────────────

/-- C1: every `activateCorridor` call creates an incident whose
`signalSwitches` list has exactly one entry per configured intersection, in
cascade (ordinal) order, with `revertedAt = switchedAt +
CORRIDOR_DURATION_MS` at every position, hence `revertedAt > switchedAt`
for every switch. -/
theorem C1_switch_list (d : Detection) (now tse : Nat) (st : EngineState) :
    ∃ inc : Incident,
      (activateCorridor d now tse st).state.incidents.head? = some inc ∧
      inc.signalSwitches.map (·.intersectionId) =
        st.signals.map (·.intersectionId) ∧
      inc.signalSwitches.length = st.signals.length ∧
      (∀ sw ∈ inc.signalSwitches,
        sw.revertedAt = some (sw.switchedAt + CORRIDOR_DURATION_MS)) ∧
      (∀ sw ∈ inc.signalSwitches, ∀ v, sw.revertedAt = some v →
        sw.switchedAt < v) := by
  refine ⟨mkIncident d now tse (st.incidentCounter + 1) st.signals,
    pushIncident_head _ _, ?_, ?_, ?_, ?_⟩
  · show (withIdx (mkSwitch now) 0 st.signals).map
        (fun sw : SignalSwitch => sw.intersectionId) =
      st.signals.map (fun s : SignalState => s.intersectionId)
    exact withIdx_map (mkSwitch now) (fun sw => sw.intersectionId)
      (fun s => s.intersectionId) (fun i a => rfl) 0 st.signals
  · show (withIdx (mkSwitch now) 0 st.signals).length = st.signals.length
    exact withIdx_length (mkSwitch now) 0 st.signals
  · intro sw hsw
    obtain ⟨i, a, _, rfl⟩ := withIdx_mem hsw
    rfl
  · intro sw hsw v hv
    obtain ⟨i, a, _, rfl⟩ := withIdx_mem hsw
    simp only [mkSwitch, Option.some.injEq] at hv
    simp only [mkSwitch, CORRIDOR_DURATION_MS] at hv ⊢
    omega

/-- Witness for C1 at a concrete input: the created incident's switch list
covers the four configured intersections in cascade order. -/
theorem C1_switch_list_witness :
    ((activateCorridor demoDetection 1000 20 initState).state.incidents.head?).map
        (fun i => i.signalSwitches.map (·.intersectionId)) =
      some ["INT-1", "INT-2", "INT-3", "INT-4"] := by
  obtain ⟨inc, h1, h2, _, _, _⟩ := C1_switch_list demoDetection 1000 20 initState
  rw [h1, Option.map_some', h2]
  rfl

/-- C3: with the configured ETA offsets (`ETA[0] = 0`, non-decreasing), the
synchronous effect of `activateCorridor` puts position 0 in the green phase
and every position `k > 0` in the pre-clear phase, and each `k > 0`
position turns green exactly at `activateAt = now + ETA[k]·1000`, staying
pre-clear strictly before it. -/
theorem C3_sync_and_cascade (d : Detection) (now tse : Nat) (st : EngineState)
    (hlen : st.signals.length = 4) :
    (ETA_OFFSETS.getD 0 0 = 0 ∧ ETA_OFFSETS.Pairwise (· ≤ ·)) ∧
    (((activateCorridor d now tse st).state.signals[0]?).map (·.state) =
      some SigPhase.CORRIDOR_GREEN) ∧
    (∀ k, 0 < k → k < 4 →
      ((activateCorridor d now tse st).state.signals[k]?).map (·.state) =
        some SigPhase.PRE_CLEAR_ORANGE) ∧
    (∀ k, 0 < k → k < 4 → ∀ T, T < now + etaMs k →
      ((runUntil (activateCorridor d now tse st).state
          (activateCorridor d now tse st).sched T).signals[k]?).map (·.state) =
        some SigPhase.PRE_CLEAR_ORANGE) ∧
    (∀ k, 0 < k → k < 4 → ∀ T, now + etaMs k ≤ T →
        T < now + etaMs k + CORRIDOR_DURATION_MS →
      ((runUntil (activateCorridor d now tse st).state
          (activateCorridor d now tse st).sched T).signals[k]?).map (·.state) =
        some SigPhase.CORRIDOR_GREEN) := by
  refine ⟨⟨rfl, by decide⟩, ?_, ?_, ?_, ?_⟩
  · obtain ⟨s, hs⟩ : ∃ s, st.signals[0]? = some s :=
      ⟨_, List.getElem?_eq_getElem (by omega)⟩
    rw [activate_sync_signal d now tse st 0 s hs]
    simp [activateSignal]
  · intro k hk0 hk
    obtain ⟨s, hs⟩ : ∃ s, st.signals[k]? = some s :=
      ⟨_, List.getElem?_eq_getElem (by omega)⟩
    rw [activate_sync_signal d now tse st k s hs]
    simp [activateSignal, Nat.pos_iff_ne_zero.mp hk0]
  · intro k hk0 hk T hT
    obtain ⟨s, hs⟩ : ∃ s, st.signals[k]? = some s :=
      ⟨_, List.getElem?_eq_getElem (by omega)⟩
    rw [runUntil_state_eval_pos d now tse st T k (now + etaMs k) s hs hk0
      (sched_targets_eval d now tse st hlen k hk0 hk)]
    rw [if_pos hT]
  · intro k hk0 hk T hT1 hT2
    obtain ⟨s, hs⟩ : ∃ s, st.signals[k]? = some s :=
      ⟨_, List.getElem?_eq_getElem (by omega)⟩
    rw [runUntil_state_eval_pos d now tse st T k (now + etaMs k) s hs hk0
      (sched_targets_eval d now tse st hlen k hk0 hk)]
    rw [if_neg (by omega), if_pos (by omega)]

/-- Witness for C3 at a concrete input: at `T = now + ETA[1]·1000` exactly,
the second intersection has turned green; one millisecond earlier it was
still pre-clear. -/
theorem C3_sync_and_cascade_witness :
    ((runUntil (activateCorridor demoDetection 1000 20 initState).state
        (activateCorridor demoDetection 1000 20 initState).sched 9000).signals[1]?).map
        (·.state) = some SigPhase.CORRIDOR_GREEN ∧
    ((runUntil (activateCorridor demoDetection 1000 20 initState).state
        (activateCorridor demoDetection 1000 20 initState).sched 8999).signals[1]?).map
        (·.state) = some SigPhase.PRE_CLEAR_ORANGE := by
  have h := C3_sync_and_cascade demoDetection 1000 20 initState rfl
  exact ⟨h.2.2.2.2 1 (by decide) (by decide) 9000 (by decide) (by decide),
    h.2.2.2.1 1 (by decide) (by decide) 8999 (by decide)⟩

/-- C2: each cascade registers exactly one corridor-cleared timer, firing
`ETA[last]·1000 + CORRIDOR_DURATION_MS + COOLDOWN_MS` after the activation
instant; the created incident's `corridorClearedAt` is null synchronously
and at every instant strictly before the fire time, carries the fire time
from then on (a single null→timestamp transition), and the stamped value
dominates every switch's `revertedAt`. -/
theorem C2_corridorCleared_once (d : Detection) (now tse : Nat) (st : EngineState) :
    ((activateCorridor d now tse st).state.incidents.head? =
      some (mkIncident d now tse (st.incidentCounter + 1) st.signals)) ∧
    ((activateCorridor d now tse st).sched.filter isClearEvent =
      [(now + totalDuration, Action.clearIncident (st.incidentCounter + 1))]) ∧
    totalDuration = etaMs 3 + CORRIDOR_DURATION_MS + COOLDOWN_MS ∧
    (((activateCorridor d now tse st).state.incidents.head?).map
      (·.corridorClearedAt) = some none) ∧
    (∀ T, T < now + totalDuration →
      ((runUntil (activateCorridor d now tse st).state
          (activateCorridor d now tse st).sched T).incidents.head?).map
        (·.corridorClearedAt) = some none) ∧
    (∀ T, now + totalDuration ≤ T →
      ((runUntil (activateCorridor d now tse st).state
          (activateCorridor d now tse st).sched T).incidents.head?).map
        (·.corridorClearedAt) = some (some (now + totalDuration))) ∧
    (∀ sw ∈ (mkIncident d now tse (st.incidentCounter + 1) st.signals).signalSwitches,
      ∀ v, sw.revertedAt = some v → v ≤ now + totalDuration) := by
  refine ⟨pushIncident_head _ _, sched_filter_clear d now tse st, rfl, ?_, ?_, ?_, ?_⟩
  · rw [show (activateCorridor d now tse st).state.incidents.head? =
        some (mkIncident d now tse (st.incidentCounter + 1) st.signals) from
        pushIncident_head _ _]
    rfl
  · intro T hT
    rw [newIncident_cleared_at d now tse st T, if_neg (by omega)]
  · intro T hT
    rw [newIncident_cleared_at d now tse st T, if_pos hT]
  · intro sw hsw v hv
    obtain ⟨i, a, _, rfl⟩ := withIdx_mem hsw
    simp only [mkSwitch, Option.some.injEq] at hv
    have hb := etaMs_le i
    rw [totalDuration_eq]
    simp only [CORRIDOR_DURATION_MS] at hv
    omega

/-- Witness for C2 at a concrete input: one millisecond before the cleared
timer fires `corridorClearedAt` is still null; at the fire time it carries
the fire time. -/
theorem C2_corridorCleared_once_witness :
    ((runUntil (activateCorridor demoDetection 1000 20 initState).state
        (activateCorridor demoDetection 1000 20 initState).sched 35999).incidents.head?).map
      (·.corridorClearedAt) = some none ∧
    ((runUntil (activateCorridor demoDetection 1000 20 initState).state
        (activateCorridor demoDetection 1000 20 initState).sched 36000).incidents.head?).map
      (·.corridorClearedAt) = some (some 36000) := by
  have h := C2_corridorCleared_once demoDetection 1000 20 initState
  exact ⟨h.2.2.2.2.1 35999 (by decide), h.2.2.2.2.2.1 36000 (by decide)⟩

/-- C9 counterexample: in the process-start state the second intersection is
idle red; the `activateCorridor` call at `now = 1000` synchronously moves it
into the pre-clear (orange) phase — so that phase began at instant 1000 —
yet its `activatedAt` is stamped `9000` (the scheduled green time
`now + ETA[1]·1000`), not the orange phase's start. -/
theorem C9_counterexample :
    (initState.signals[1]?).map (·.state) = some SigPhase.NORMAL_RED ∧
    ((activateCorridor demoDetection 1000 20 initState).state.signals[1]?).map
      (·.state) = some SigPhase.PRE_CLEAR_ORANGE ∧
    ((activateCorridor demoDetection 1000 20 initState).state.signals[1]?).map
      (·.activatedAt) = some (some 9000) ∧
    (9000 : Nat) ≠ 1000 := by
  exact ⟨rfl, rfl, rfl, by decide⟩

/-- C9 amended: `activatedAt` is stamped at activation with the *scheduled
green time* `now + ETA[k]·1000` — which coincides with the phase start only
at position 0 (`ETA[0] = 0`) — keeps that value for the whole cascade of
that position, and is cleared to null when the revert timer returns the
signal to idle red. -/
theorem C9_activatedAt_amended (d : Detection) (now tse : Nat) (st : EngineState)
    (hlen : st.signals.length = 4) :
    (∀ k, k < 4 →
      ((activateCorridor d now tse st).state.signals[k]?).map (·.activatedAt) =
        some (some (now + etaMs k))) ∧
    etaMs 0 = 0 ∧
    (∀ k, k < 4 → ∀ T, T < now + etaMs k + CORRIDOR_DURATION_MS + COOLDOWN_MS →
      ((runUntil (activateCorridor d now tse st).state
          (activateCorridor d now tse st).sched T).signals[k]?).map
        (·.activatedAt) = some (some (now + etaMs k))) ∧
    (∀ k, k < 4 → ∀ T, now + etaMs k + CORRIDOR_DURATION_MS + COOLDOWN_MS ≤ T →
      ((runUntil (activateCorridor d now tse st).state
          (activateCorridor d now tse st).sched T).signals[k]?).map
        (·.activatedAt) = some none) := by
  refine ⟨?_, rfl, ?_, ?_⟩
  · intro k hk
    obtain ⟨s, hs⟩ : ∃ s, st.signals[k]? = some s :=
      ⟨_, List.getElem?_eq_getElem (by omega)⟩
    rw [activate_sync_signal d now tse st k s hs]
    simp [activateSignal]
  · intro k hk T hT
    obtain ⟨s, hs⟩ : ∃ s, st.signals[k]? = some s :=
      ⟨_, List.getElem?_eq_getElem (by omega)⟩
    rcases Nat.eq_zero_or_pos k with rfl | hk0
    · have h0 : etaMs 0 = 0 := rfl
      rw [runUntil_activatedAt_eval_zero d now tse st T s hs
        (sched_targets_zero_eval d now tse st hlen)]
      rw [if_pos (by omega)]
    · rw [runUntil_activatedAt_eval_pos d now tse st T k (now + etaMs k) s hs
        (sched_targets_eval d now tse st hlen k hk0 hk)]
      rw [if_pos (by omega)]
  · intro k hk T hT
    obtain ⟨s, hs⟩ : ∃ s, st.signals[k]? = some s :=
      ⟨_, List.getElem?_eq_getElem (by omega)⟩
    rcases Nat.eq_zero_or_pos k with rfl | hk0
    · have h0 : etaMs 0 = 0 := rfl
      rw [runUntil_activatedAt_eval_zero d now tse st T s hs
        (sched_targets_zero_eval d now tse st hlen)]
      rw [if_neg (by omega)]
    · rw [runUntil_activatedAt_eval_pos d now tse st T k (now + etaMs k) s hs
        (sched_targets_eval d now tse st hlen k hk0 hk)]
      rw [if_neg (by omega)]

/-- Witness for the amended C9 at a concrete input: during the cascade the
second intersection's `activatedAt` shows its scheduled green time 9000;
once its revert-to-red timer has fired (at 16000) it is null. -/
theorem C9_activatedAt_amended_witness :
    ((runUntil (activateCorridor demoDetection 1000 20 initState).state
        (activateCorridor demoDetection 1000 20 initState).sched 15999).signals[1]?).map
      (·.activatedAt) = some (some 9000) ∧
    ((runUntil (activateCorridor demoDetection 1000 20 initState).state
        (activateCorridor demoDetection 1000 20 initState).sched 16000).signals[1]?).map
      (·.activatedAt) = some none := by
  have h := C9_activatedAt_amended demoDetection 1000 20 initState rfl
  exact ⟨h.2.2.1 1 (by decide) 15999 (by decide), h.2.2.2 1 (by decide) 16000 (by decide)⟩

set_option maxRecDepth 10000 in
/-- C4: after every append the ledger holds at most 200 incidents, newest
first (the new incident is prepended); when the ids descend along the list
(newest-first allocation order) the evicted tail consists exactly of the
lowest-id entries; appending 201 incidents with ids 1..201 to an empty
ledger leaves ids 201..2 — id 1 is evicted. -/
theorem C4_ledger_cap (inc : Incident) (l : List Incident)
    (hsorted : (inc :: l).Pairwise (fun a b => b.id < a.id)) :
    (pushIncident inc l).length ≤ 200 ∧
    (pushIncident inc l).length = min (l.length + 1) 200 ∧
    (pushIncident inc l).head? = some inc ∧
    (∀ e ∈ (inc :: l).drop 200, ∀ kv ∈ pushIncident inc l, e.id < kv.id) ∧
    ((((List.range' 1 201).map (fun n => plainIncident n 0 none)).foldl
        (fun acc i => pushIncident i acc) []).map (·.id) =
      (List.range' 2 200).reverse) := by
  refine ⟨?_, pushIncident_length inc l, pushIncident_head inc l, ?_, ?_⟩
  · rw [pushIncident_length]
    omega
  · intro e he kv hkv
    rw [pushIncident_eq_take] at hkv
    have h2 : List.Pairwise (fun a b => b.id < a.id)
        ((inc :: l).take 200 ++ (inc :: l).drop 200) := by
      rw [List.take_append_drop]
      exact hsorted
    exact (List.pairwise_append.mp h2).2.2 kv hkv e he
  · decide

/-- Witness for C4 at a concrete input: appending to an empty (trivially
descending) ledger keeps the cap and prepends the new incident. -/
theorem C4_ledger_cap_witness :
    (pushIncident (plainIncident 1 0 none) []).length = min 1 200 ∧
    (pushIncident (plainIncident 1 0 none) []).head? =
      some (plainIncident 1 0 none) := by
  have h := C4_ledger_cap (plainIncident 1 0 none) [] (by simp)
  exact ⟨h.2.1, h.2.2.1⟩

/-- C5 counterexample: at the process-start state `activateCorridor` creates
the incident with id 1, but the function body has no return statement — its
value is `undefined`, not the created id. -/
theorem C5_counterexample :
    (activateCorridor demoDetection 1000 20 initState).ret = none ∧
    ((activateCorridor demoDetection 1000 20 initState).state.incidents.head?).map
      (·.id) = some 1 ∧
    (activateCorridor demoDetection 1000 20 initState).ret ≠ some 1 := by
  exact ⟨rfl, rfl, by decide⟩

/-- C5 amended: `activateCorridor` allocates the next incident id
monotonically (counter + 1, so ids start at 1 on the fresh process) and
never reuses an id of a retained incident; however it returns `undefined`
(the JS function has no return value), so the created id is not returned
to the caller. -/
theorem C5_id_allocation_amended (d : Detection) (now tse : Nat)
    (st : EngineState) (hids : ∀ i ∈ st.incidents, i.id ≤ st.incidentCounter) :
    (activateCorridor d now tse st).ret = none ∧
    (activateCorridor d now tse st).state.incidentCounter =
      st.incidentCounter + 1 ∧
    ((activateCorridor d now tse st).state.incidents.head?).map (·.id) =
      some (st.incidentCounter + 1) ∧
    (∀ i ∈ st.incidents, i.id ≠ st.incidentCounter + 1) ∧
    (∀ i ∈ (activateCorridor d now tse st).state.incidents,
      i.id ≤ (activateCorridor d now tse st).state.incidentCounter) ∧
    (st.incidentCounter = 0 →
      ((activateCorridor d now tse st).state.incidents.head?).map (·.id) =
        some 1) := by
  refine ⟨rfl, rfl, ?_, ?_, ?_, ?_⟩
  · rw [show (activateCorridor d now tse st).state.incidents.head? =
      some (mkIncident d now tse (st.incidentCounter + 1) st.signals) from
      pushIncident_head _ _]
    rfl
  · intro i hi
    have := hids i hi
    omega
  · intro i hi
    have hi2 : i ∈ pushIncident
        (mkIncident d now tse (st.incidentCounter + 1) st.signals)
        st.incidents := hi
    rw [pushIncident_eq_take] at hi2
    rcases List.mem_cons.mp (List.mem_of_mem_take hi2) with rfl | hmem
    · exact Nat.le_refl _
    · exact Nat.le_succ_of_le (hids i hmem)
  · intro h0
    rw [show (activateCorridor d now tse st).state.incidents.head? =
      some (mkIncident d now tse (st.incidentCounter + 1) st.signals) from
      pushIncident_head _ _]
    simp [mkIncident, h0]

/-- Witness for the amended C5 at the process-start state: the first
incident gets id 1 while the call returns no value. -/
theorem C5_id_allocation_amended_witness :
    (activateCorridor demoDetection 1000 20 initState).ret = none ∧
    ((activateCorridor demoDetection 1000 20 initState).state.incidents.head?).map
      (·.id) = some 1 := by
  have h := C5_id_allocation_amended demoDetection 1000 20 initState
    (by intro i hi; simp [initState] at hi)
  exact ⟨h.1, h.2.2.2.2.2 rfl⟩

/-- C6 counterexample: the JSON body `{}` parses but carries none of the
required fields (zone, confidence, timestamp); the handler nevertheless
answers 200/success and invokes `activateCorridor`, creating an incident
from defaulted values. -/
theorem C6_counterexample :
    emptyBody.zone = none ∧ emptyBody.confidence = none ∧
    emptyBody.timestamp = none ∧
    (detectionPOST (some emptyBody) 1000 20 initState).resp.status = 200 ∧
    (detectionPOST (some emptyBody) 1000 20 initState).resp.success = true ∧
    (detectionPOST (some emptyBody) 1000 20 initState).state.incidents.length = 1 := by
  exact ⟨rfl, rfl, rfl, rfl, rfl, rfl⟩

/-- C6 amended: only unparsable request bodies (`req.json()` throwing) are
rejected — with 400 and without touching the engine; every parsed JSON
body, even one missing the whole detection shape, is accepted with 200,
its fields silently defaulted, and `activateCorridor` is invoked for it. -/
theorem C6_reject_amended (now tse : Nat) (st : EngineState) :
    ((detectionPOST none now tse st).resp.status = 400 ∧
      (detectionPOST none now tse st).resp.success = false ∧
      (detectionPOST none now tse st).state = st ∧
      (detectionPOST none now tse st).sched = []) ∧
    (∀ b : JsonBody,
      (detectionPOST (some b) now tse st).resp.status = 200 ∧
      (detectionPOST (some b) now tse st).resp.success = true ∧
      (detectionPOST (some b) now tse st).state.incidentCounter =
        st.incidentCounter + 1 ∧
      ((detectionPOST (some b) now tse st).state.incidents.head?).map (·.zone) =
        some (b.zone.getD "UNKNOWN") ∧
      ((detectionPOST (some b) now tse st).state.incidents.head?).map
        (·.confidence) = some (b.confidence.getD 0)) := by
  refine ⟨⟨rfl, rfl, rfl, rfl⟩, ?_⟩
  intro b
  have hhead : (detectionPOST (some b) now tse st).state.incidents.head? =
      some (mkIncident (detOfBody b now) now tse (st.incidentCounter + 1)
        st.signals) :=
    pushIncident_head _ _
  exact ⟨rfl, rfl, rfl, by rw [hhead]; rfl, by rw [hhead]; rfl⟩

/-- Witness for the amended C6 at concrete inputs: an unparsable body is
rejected with 400, while the empty JSON object is accepted with 200. -/
theorem C6_reject_amended_witness :
    (detectionPOST none 1000 20 initState).resp.status = 400 ∧
    (detectionPOST (some emptyBody) 1000 20 initState).resp.status = 200 := by
  have h := C6_reject_amended 1000 20 initState
  exact ⟨h.1.1, (h.2 emptyBody).1⟩

/-- C7 counterexample: for a ledger holding estimates 15 and 16 the exact
arithmetic mean is 31/2, but `stats` reports `Math.round(31/2) = 16`. -/
theorem C7_counterexample :
    (statsOf [plainIncident 1 15 none, plainIncident 2 16 none]).avgTimeSaved = 16 ∧
    sumTimeSaved [plainIncident 1 15 none, plainIncident 2 16 none] = 31 ∧
    ¬ (((statsOf [plainIncident 1 15 none, plainIncident 2 16 none]).avgTimeSaved : ℚ) =
      (sumTimeSaved [plainIncident 1 15 none, plainIncident 2 16 none] : ℚ) / 2) := by
  refine ⟨rfl, rfl, ?_⟩
  rw [show (statsOf [plainIncident 1 15 none, plainIncident 2 16 none]).avgTimeSaved
      = 16 from rfl,
    show sumTimeSaved [plainIncident 1 15 none, plainIncident 2 16 none] = 31 from rfl]
  norm_num

/-- C7 amended: `stats().avgTimeSaved` is 0 on an empty ledger and otherwise
the mean of `timeSavedEstimate` rounded to the nearest integer with halves
rounding up (JS `Math.round`), i.e. `round` of the exact rational mean. -/
theorem C7_avg_amended (l : List Incident) :
    (l = [] → (statsOf l).avgTimeSaved = 0) ∧
    (l ≠ [] → ((statsOf l).avgTimeSaved : ℤ) =
      round ((sumTimeSaved l : ℚ) / (l.length : ℚ))) := by
  constructor
  · intro h
    subst h
    rfl
  · intro h
    have hn : 0 < l.length := List.length_pos.mpr h
    show ((if 0 < l.length then jsRoundDiv (sumTimeSaved l) l.length else 0 : ℕ) : ℤ) = _
    rw [if_pos hn, round_eq]
    have hq : (sumTimeSaved l : ℚ) / (l.length : ℚ) + 1 / 2 =
        ((2 * sumTimeSaved l + l.length : ℕ) : ℚ) / ((2 * l.length : ℕ) : ℚ) := by
      have hz : (l.length : ℚ) ≠ 0 := by positivity
      push_cast
      field_simp
      ring
    rw [hq, Rat.floor_natCast_div_natCast]
    exact_mod_cast rfl

/-- Witness for the amended C7 at a concrete ledger: the reported average
over estimates 15 and 16 equals `round (31/2) = 16`. -/
theorem C7_avg_amended_witness :
    ((statsOf [plainIncident 1 15 none, plainIncident 2 16 none]).avgTimeSaved : ℤ) =
      round ((sumTimeSaved [plainIncident 1 15 none, plainIncident 2 16 none] : ℚ) /
        (([plainIncident 1 15 none, plainIncident 2 16 none] : List Incident).length : ℚ)) := by
  exact (C7_avg_amended [plainIncident 1 15 none, plainIncident 2 16 none]).2 (by simp)

/-- C8 counterexample: an incident whose `corridorClearedAt` is the
timestamp 0 is non-null but falsy in JS, so the `filter(i =>
i.corridorClearedAt)` fold does not count it. -/
theorem C8_counterexample :
    (statsOf [plainIncident 1 10 (some 0)]).totalCorridorsCleared = 0 ∧
    ([plainIncident 1 10 (some 0)].filter
      (fun i => i.corridorClearedAt.isSome)).length = 1 ∧
    (0 : Nat) ≠ 1 := by
  exact ⟨rfl, rfl, by decide⟩

/-- C8 amended: `stats().totalIncidents` is the number of retained
incidents, and — provided no retained incident carries the (unreachable in
this engine) cleared-timestamp 0 — `totalCorridorsCleared` counts exactly
the incidents with non-null `corridorClearedAt`. -/
theorem C8_stats_amended (st : EngineState)
    (hpos : ∀ i ∈ st.incidents, i.corridorClearedAt ≠ some 0) :
    (detectionGET st).stats.totalIncidents = st.incidents.length ∧
    (detectionGET st).stats.totalCorridorsCleared =
      (st.incidents.filter (fun i => i.corridorClearedAt.isSome)).length := by
  refine ⟨rfl, ?_⟩
  show (st.incidents.filter (fun i => jsTruthy i.corridorClearedAt)).length = _
  congr 1
  refine List.filter_congr ?_
  intro i hi
  have h := hpos i hi
  cases hcc : i.corridorClearedAt with
  | none => rfl
  | some t =>
    cases t with
    | zero => exact absurd hcc h
    | succ m => rfl

/-- Witness for the amended C8 at a concrete ledger with one cleared and
one pending incident. -/
theorem C8_stats_amended_witness :
    (detectionGET { initState with
      incidents := [plainIncident 1 10 (some 5), plainIncident 2 3 none] }).stats.totalIncidents = 2 ∧
    (detectionGET { initState with
      incidents := [plainIncident 1 10 (some 5), plainIncident 2 3 none] }).stats.totalCorridorsCleared = 1 := by
  have h := C8_stats_amended { initState with
      incidents := [plainIncident 1 10 (some 5), plainIncident 2 3 none] }
    (by decide)
  exact ⟨h.1, h.2⟩

theorem activate_incidents_mode (d : Detection) (now tse : Nat)
    (st : EngineState) (hmode : ∀ i ∈ st.incidents, i.mode = Mode.vision) :
    ∀ i ∈ (activateCorridor d now tse st).state.incidents,
      i.mode = Mode.vision := by
  intro i hi
  have hi2 : i ∈ pushIncident
      (mkIncident d now tse (st.incidentCounter + 1) st.signals)
      st.incidents := hi
  rw [pushIncident_eq_take] at hi2
  rcases List.mem_cons.mp (List.mem_of_mem_take hi2) with rfl | hmem
  · rfl
  · exact hmode i hmem

/-- C10: every incident the engine ever records has mode `vision` — the
incident literal hardcodes `mode: "vision"`, timer callbacks never change
it, and the beacon endpoint only forwards to the detection endpoint, so
even GPS-originated detections yield `vision` incidents; no incident is
ever recorded with `gps_fallback`. -/
theorem C10_mode_always_vision (st : EngineState)
    (hmode : ∀ i ∈ st.incidents, i.mode = Mode.vision) :
    (∀ d now tse, ∀ i ∈ (activateCorridor d now tse st).state.incidents,
      i.mode = Mode.vision) ∧
    (∀ body? now tse, ∀ i ∈ (detectionPOST body? now tse st).state.incidents,
      i.mode = Mode.vision) ∧
    (∀ body? fetchOk vel now tse,
      ∀ i ∈ (beaconPOST body? fetchOk vel now tse st).2.1.incidents,
      i.mode = Mode.vision) ∧
    (∀ evs T, ∀ i ∈ (runUntil st evs T).incidents, i.mode = Mode.vision) := by
  refine ⟨fun d now tse => activate_incidents_mode d now tse st hmode,
    ?_, ?_, ?_⟩
  · intro body? now tse
    cases body? with
    | none => exact hmode
    | some b => exact activate_incidents_mode _ now tse _ hmode
  · intro body? fetchOk vel now tse
    cases body? with
    | none => exact hmode
    | some b =>
      cases fetchOk with
      | false => exact hmode
      | true => exact activate_incidents_mode _ now tse _ hmode
  · intro evs T i hi
    have hi2 : i ∈ st.incidents.map
        (fun j => (evs.filter (fun e => e.1 ≤ T)).foldl applyInc j) := by
      rw [← foldl_applyEvent_incidents]
      exact hi
    rcases List.mem_map.mp hi2 with ⟨j, hj, rfl⟩
    rw [foldl_applyInc_mode]
    exact hmode j hj

/-- A concrete GPS beacon payload for C10's witness. -/
def demoBeacon : BeaconBody :=
  { lat := some 13, lng := some (77601 / 1000), speed := some 10,
    heading := some 90, timestamp := some 42 }

/-- Witness for C10 at a concrete input: the incident created by a
beacon-originated (GPS fallback) detection still has mode `vision`. -/
theorem C10_mode_always_vision_witness :
    (mkIncident (detOfBody (beaconForwardBody demoBeacon (0, 0)) 1000) 1000 20 1
      initSignals).mode = Mode.vision := by
  have h := (C10_mode_always_vision initState
    (by intro i hi; simp [initState] at hi)).2.2.1
    (some demoBeacon) true (0, 0) 1000 20
  have hhead : (beaconPOST (some demoBeacon) true (0, 0) 1000 20
      initState).2.1.incidents.head? =
      some (mkIncident (detOfBody (beaconForwardBody demoBeacon (0, 0)) 1000)
        1000 20 1 initSignals) := by
    show (pushIncident (mkIncident (detOfBody (beaconForwardBody demoBeacon (0, 0)) 1000)
        1000 20 1 initSignals) []).head? = _
    exact pushIncident_head _ _
  refine h _ (List.mem_of_mem_head? ?_)
  rw [hhead]
  rfl

end GoldenHour
